import Mathlib

/-!
Shallow embedding of the public-health dashboard's prediction pipeline,
training script and aggregation routes, with theorems checking the
natural-language specification against the code.

Sources embedded:
* backend/utils/ml_model.py   (MortalityPredictor: load_model, prepare_features, predict)
* backend/train_model.py      (target creation, feature list, region mapping, saving)
* backend/routes/predictions.py (predict_mortality route)
* backend/routes/dashboard.py (get_top_countries route)
* backend/routes/cases.py     (get_who_regions route)

Numeric values are modelled as exact rationals; `np.log1p` is kept abstract
as a function parameter because the claims under study do not depend on its
values, only on where it is applied.
-/

/-- A JSON-body input dictionary: association list from field name to number,
modelling the Python dict handed to `MortalityPredictor.predict`. -/
abbrev Snapshot := List (String × ℚ)

/-- Python's `data.get(k, default)`. -/
def Snapshot.get (d : Snapshot) (k : String) (a : ℚ) : ℚ :=
  ((d.find? (fun p => decide (p.1 = k))).map (fun p => p.2)).getD a

/-- Python's `k in data`. -/
def Snapshot.hasKey (d : Snapshot) (k : String) : Bool :=
  d.any (fun p => decide (p.1 = k))

theorem Snapshot.get_absent (d : Snapshot) (k : String) (a : ℚ)
    (h : d.hasKey k = false) : d.get k a = a := by
  have hnone : d.find? (fun p => decide (p.1 = k)) = none := by
    rw [List.find?_eq_none]
    intro x hx
    have hx2 := List.any_eq_false.mp h x hx
    simpa using hx2
  simp [Snapshot.get, hnone]

theorem Snapshot.get_pos_default_irrel (d : Snapshot) (k : String) (a : ℚ)
    (h : 0 < d.get k 0) : d.get k a = d.get k 0 := by
  rcases hf : d.find? (fun p => decide (p.1 = k)) with _ | p
  · rw [Snapshot.get, hf] at h
    simp at h
  · rw [Snapshot.get, hf, Snapshot.get, hf]
    rfl

/-! ## Feature Builder: `MortalityPredictor.prepare_features` (ml_model.py 54-137)

Each local variable of the Python function becomes one definition, so each
transform is addressable by name; the raw vector is the literal 19-element
list in source order, and scaling is applied when a scaler is loaded. -/

/-- `confirmed = data.get('confirmed', 0)`. -/
def inputConfirmed (d : Snapshot) : ℚ := d.get "confirmed" 0

/-- `deaths = data.get('deaths', 0)`. -/
def inputDeaths (d : Snapshot) : ℚ := d.get "deaths" 0

/-- `recovered = data.get('recovered', 0)`. -/
def inputRecovered (d : Snapshot) : ℚ := d.get "recovered" 0

/-- `active = data.get('active', confirmed - deaths - recovered)`. -/
def inputActive (d : Snapshot) : ℚ :=
  d.get "active" (inputConfirmed d - inputDeaths d - inputRecovered d)

/-- `confirmed_lag2 = data.get('confirmed_lag2', confirmed * 0.92)`. -/
def confirmedLag2 (d : Snapshot) : ℚ := d.get "confirmed_lag2" (inputConfirmed d * (92/100))

/-- `deaths_lag2 = data.get('deaths_lag2', deaths * 0.92)`. -/
def deathsLag2 (d : Snapshot) : ℚ := d.get "deaths_lag2" (inputDeaths d * (92/100))

/-- `recovered_lag2 = data.get('recovered_lag2', recovered * 0.92)`. -/
def recoveredLag2 (d : Snapshot) : ℚ := d.get "recovered_lag2" (inputRecovered d * (92/100))

/-- `active_lag2 = data.get('active_lag2', active * 0.92)`. -/
def activeLag2 (d : Snapshot) : ℚ := d.get "active_lag2" (inputActive d * (92/100))

/-- `confirmed_change_2d = confirmed - confirmed_lag2`. -/
def confirmedChange2d (d : Snapshot) : ℚ := inputConfirmed d - confirmedLag2 d

/-- `deaths_change_2d = deaths - deaths_lag2`. -/
def deathsChange2d (d : Snapshot) : ℚ := inputDeaths d - deathsLag2 d

/-- `recovered_change_2d = recovered - recovered_lag2`. -/
def recoveredChange2d (d : Snapshot) : ℚ := inputRecovered d - recoveredLag2 d

/-- `confirmed_rolling_14d = data.get('confirmed_rolling_14d', confirmed)`. -/
def confirmedRolling14d (d : Snapshot) : ℚ := d.get "confirmed_rolling_14d" (inputConfirmed d)

/-- `deaths_rolling_14d = data.get('deaths_rolling_14d', deaths)`. -/
def deathsRolling14d (d : Snapshot) : ℚ := d.get "deaths_rolling_14d" (inputDeaths d)

/-- `recovered_rolling_14d = data.get('recovered_rolling_14d', recovered)`. -/
def recoveredRolling14d (d : Snapshot) : ℚ := d.get "recovered_rolling_14d" (inputRecovered d)

/-- `confirmed_volatility = data.get('confirmed_volatility', abs(confirmed_change_2d) * 0.5)`. -/
def confirmedVolatility (d : Snapshot) : ℚ :=
  d.get "confirmed_volatility" (|confirmedChange2d d| * (1/2))

/-- `deaths_volatility = data.get('deaths_volatility', abs(deaths_change_2d) * 0.5)`. -/
def deathsVolatility (d : Snapshot) : ℚ :=
  d.get "deaths_volatility" (|deathsChange2d d| * (1/2))

/-- `confirmed_acceleration = data.get('confirmed_acceleration', confirmed_change_2d * 0.1)`. -/
def confirmedAcceleration (d : Snapshot) : ℚ :=
  d.get "confirmed_acceleration" (confirmedChange2d d * (1/10))

/-- `day_of_week = data.get('day_of_week', 3)`. -/
def dayOfWeek (d : Snapshot) : ℚ := d.get "day_of_week" 3

/-- `days_since_first = data.get('days_since_first', 30)`. -/
def daysSinceFirst (d : Snapshot) : ℚ := d.get "days_since_first" 30

/-- `who_region_encoded = data.get('who_region_encoded', 0)`. -/
def whoRegionEncoded (d : Snapshot) : ℚ := d.get "who_region_encoded" 0

/-- The raw 19-element feature vector, in the literal order of the
`np.array` built by `prepare_features` (ml_model.py 111-131).
`lg` stands for `np.log1p`, kept abstract. -/
def prepare_features_raw (lg : ℚ → ℚ) (d : Snapshot) : List ℚ :=
  [ confirmedLag2 d,
    deathsLag2 d,
    recoveredLag2 d,
    activeLag2 d,
    confirmedChange2d d,
    deathsChange2d d,
    recoveredChange2d d,
    confirmedRolling14d d,
    deathsRolling14d d,
    recoveredRolling14d d,
    confirmedVolatility d,
    deathsVolatility d,
    confirmedAcceleration d,
    dayOfWeek d,
    daysSinceFirst d,
    whoRegionEncoded d,
    lg (confirmedLag2 d),
    lg (deathsLag2 d),
    lg (recoveredLag2 d) ]

/-- A fitted `StandardScaler`: per-column `(mean, scale)` pairs. -/
abbrev Scaler := List (ℚ × ℚ)

/-- `StandardScaler.transform`, column by column: `(x - mean) / scale`. -/
def scaleFeatures (sc : Scaler) (xs : List ℚ) : List ℚ :=
  List.zipWith (fun p x => (x - p.1) / p.2) sc xs

/-- `prepare_features`: raw vector, then `scaler.transform` when a scaler
was loaded (`if self.scaler is not None`, ml_model.py 134-135). -/
def prepare_features (lg : ℚ → ℚ) (sc : Option Scaler) (d : Snapshot) : List ℚ :=
  match sc with
  | some s => scaleFeatures s (prepare_features_raw lg d)
  | none => prepare_features_raw lg d

/-! ## Training-side feature schema (train_model.py 148-172) -/

/-- The ordered `feature_columns` list persisted by the training script
(train_model.py 148-172), exactly as written there. -/
def feature_columns : List String :=
  [ "confirmed_lag2", "deaths_lag2", "recovered_lag2", "active_lag2",
    "confirmed_change_2d", "deaths_change_2d", "recovered_change_2d",
    "confirmed_rolling_14d", "deaths_rolling_14d", "recovered_rolling_14d",
    "confirmed_volatility", "deaths_volatility",
    "confirmed_acceleration",
    "day_of_week", "days_since_first",
    "who_region_encoded",
    "log_confirmed_lag2", "log_deaths_lag2", "log_recovered_lag2" ]

/-- The inference-side vector paired with the feature names documented for
each position in `prepare_features` (ml_model.py 58-66 docstring and the
per-entry comments at 111-131). -/
def namedRawFeatures (lg : ℚ → ℚ) (d : Snapshot) : List (String × ℚ) :=
  [ ("confirmed_lag2", confirmedLag2 d),
    ("deaths_lag2", deathsLag2 d),
    ("recovered_lag2", recoveredLag2 d),
    ("active_lag2", activeLag2 d),
    ("confirmed_change_2d", confirmedChange2d d),
    ("deaths_change_2d", deathsChange2d d),
    ("recovered_change_2d", recoveredChange2d d),
    ("confirmed_rolling_14d", confirmedRolling14d d),
    ("deaths_rolling_14d", deathsRolling14d d),
    ("recovered_rolling_14d", recoveredRolling14d d),
    ("confirmed_volatility", confirmedVolatility d),
    ("deaths_volatility", deathsVolatility d),
    ("confirmed_acceleration", confirmedAcceleration d),
    ("day_of_week", dayOfWeek d),
    ("days_since_first", daysSinceFirst d),
    ("who_region_encoded", whoRegionEncoded d),
    ("log_confirmed_lag2", lg (confirmedLag2 d)),
    ("log_deaths_lag2", lg (deathsLag2 d)),
    ("log_recovered_lag2", lg (recoveredLag2 d)) ]

/-! ## WHO-region encoding used at training time (train_model.py 129-133) -/

/-- `region_mapping` dictionary of train_model.py 129-132. -/
def region_mapping : List (String × ℕ) :=
  [ ("Americas", 0), ("Europe", 1), ("Western Pacific", 2),
    ("Eastern Mediterranean", 3), ("South-East Asia", 4), ("Africa", 5), ("", 6) ]

/-- `df['who_region'].map(region_mapping).fillna(6)`: a name not in the
mapping gets code 6 (train_model.py 133). -/
def encodeWhoRegion (s : String) : ℕ :=
  ((region_mapping.find? (fun p => decide (p.1 = s))).map (fun p => p.2)).getD 6

/-! ## Risk Classifier inference wrapper: `MortalityPredictor.predict`
(ml_model.py 139-188). The fitted random forest itself is opaque to the
claims; it is abstracted as a pair of functions from the (scaled) feature
vector to a predicted class and to the class-probability pair. -/

/-- Opaque fitted classifier: `model.predict` (first entry of the returned
array) and `model.predict_proba` (the probability pair `(p0, p1)`). -/
structure Classifier where
  classOf : List ℚ → ℕ
  probaOf : List ℚ → ℚ × ℚ

/-- One risk band of the thresholding step of `predict`: level, colour and
the fixed advisory text (source field name: `recommendation`). -/
structure RiskBand where
  level : String
  color : String
  advisoryText : String
deriving DecidableEq

/-- Advisory text of the HIGH band (ml_model.py 163). -/
def highRiskText : String :=
  "⚠️ High mortality risk detected. Enhanced surveillance and resource allocation recommended. Implement aggressive public health interventions."

/-- Advisory text of the MEDIUM band (ml_model.py 167). -/
def mediumRiskText : String :=
  "⚠️ Moderate mortality risk. Continue monitoring outbreak patterns closely. Prepare contingency plans and ensure healthcare capacity."

/-- Advisory text of the LOW band (ml_model.py 171). -/
def lowRiskText : String :=
  "✅ Low mortality risk. Maintain standard surveillance protocols. Continue preventive measures and public health education."

/-- The `if risk_score > 0.7 / elif risk_score > 0.4 / else` chain of
`predict` (ml_model.py 160-171). -/
def bandOf (risk_score : ℚ) : RiskBand :=
  if risk_score > 7/10 then ⟨ "HIGH", "red", highRiskText⟩
  else if risk_score > 4/10 then ⟨ "MEDIUM", "orange", mediumRiskText⟩
  else ⟨ "LOW", "green", lowRiskText⟩

/-- `mortality_rate = (data.get('deaths', 0) / data.get('confirmed', 1) * 100)
if data.get('confirmed', 0) > 0 else 0` (ml_model.py 174). -/
def mortalityRateOf (d : Snapshot) : ℚ :=
  if 0 < d.get "confirmed" 0 then d.get "deaths" 0 / d.get "confirmed" 1 * 100 else 0

/-- The result dictionary of one inference call (ml_model.py 176-184).
`advisoryText` models the source's `recommendation` key. -/
structure RiskAssessment where
  predictedClass : ℕ
  risk_score : ℚ
  risk_level : String
  risk_color : String
  confidence : ℚ
  advisoryText : String
  mortality_rate : ℚ
deriving DecidableEq

/-- `MortalityPredictor.predict` (ml_model.py 139-184): prepare features,
score, band, and recompute the mortality rate from the input. -/
def mlPredict (m : Classifier) (sc : Option Scaler) (lg : ℚ → ℚ) (d : Snapshot) :
    RiskAssessment :=
  let features := prepare_features lg sc d
  let proba := m.probaOf features
  let risk_score := proba.2
  let band := bandOf risk_score
  { predictedClass := m.classOf features
    risk_score := risk_score
    risk_level := band.level
    risk_color := band.color
    confidence := max proba.1 proba.2
    advisoryText := band.advisoryText
    mortality_rate := mortalityRateOf d }

/-! ## Prediction route: `predict_mortality` (routes/predictions.py 15-85) -/

/-- Outcome of the route: either a prediction payload or an HTTP error
status with its message. -/
inductive RouteResponse where
  | success : RiskAssessment → RouteResponse
  | failure : ℕ → String → RouteResponse
deriving DecidableEq

/-- `required_fields = ['confirmed', 'deaths']` (predictions.py 45). -/
def required_fields : List String := [ "confirmed", "deaths"]

/-- `missing_fields = [field for field in required_fields if field not in data]`
(predictions.py 46). -/
def missingFields (d : Snapshot) : List String :=
  required_fields.filter (fun f => ! d.hasKey f)

/-- The `predict_mortality` route body (predictions.py 34-77). A `none`
body models a null/absent JSON body; an empty dict is falsy in Python, so
`if not data` also catches `some []`. -/
def predict_mortality (m : Classifier) (sc : Option Scaler) (lg : ℚ → ℚ)
    (body : Option Snapshot) : RouteResponse :=
  match body with
  | none => RouteResponse.failure 400 "No data provided"
  | some data =>
    if data = [] then RouteResponse.failure 400 "No data provided"
    else if missingFields data ≠ [] then
      RouteResponse.failure 400
        ("Missing required fields: " ++ String.intercalate ", " (missingFields data))
    else RouteResponse.success (mlPredict m sc lg data)

/-! ## Artifact loading: `MortalityPredictor.load_model` (ml_model.py 22-52)

The filesystem is a predicate on paths. `load_model` checks the model file
explicitly, then `open` of the feature-columns and metrics files raises when
they are absent; the scaler is read only `if os.path.exists(scaler_path)`. -/

/-- Post-load predictor state: whether a scaler was loaded (the other three
components are always present on success). -/
structure LoadedModel where
  scalerLoaded : Bool
deriving DecidableEq

/-- `load_model`, over a filesystem `present : path → Bool`. -/
def loadModel (present : String → Bool) : Except String LoadedModel :=
  if present "models/mortality_model.pkl" = false then
    Except.error "Model file not found: models/mortality_model.pkl"
  else if present "models/feature_columns.pkl" = false then
    Except.error "No such file or directory: models/feature_columns.pkl"
  else if present "models/model_metrics.pkl" = false then
    Except.error "No such file or directory: models/model_metrics.pkl"
  else
    Except.ok { scalerLoaded := present "models/scaler.pkl" }

/-! ## Case Store and aggregation routes (routes/dashboard.py, routes/cases.py) -/

/-- One `daily_cases` row. Dates are modelled as natural-number day
indices; counts as integers as stored. -/
structure CaseRow where
  country : String
  date : ℕ
  confirmed : ℤ
  deaths : ℤ
  recovered : ℤ
  active : ℤ
  who_region : String
deriving DecidableEq

/-- `SELECT MAX(date) FROM daily_cases`. -/
def latestDate (store : List CaseRow) : Option ℕ :=
  (store.map (fun r => r.date)).max?

/-- Sum of a field over a list of rows (SQL `SUM`). -/
def sumBy (rows : List CaseRow) (f : CaseRow → ℤ) : ℤ :=
  (rows.map f).sum

/-- Python's `round` at 2 decimals: round half to even on the scaled value. -/
def roundHalfEven (q : ℚ) : ℤ :=
  let f := ⌊q⌋
  let r := q - f
  if r < 1/2 then f
  else if 1/2 < r then f + 1
  else if f % 2 = 0 then f else f + 1

/-- `round(x, 2)` over exact rationals. -/
def round2 (q : ℚ) : ℚ := (roundHalfEven (q * 100) : ℚ) / 100

/-- One output row of the top-countries ranking (dashboard.py 211-218). -/
structure CountryTotals where
  country : String
  confirmed : ℤ
  deaths : ℤ
  recovered : ℤ
  active : ℤ
  mortality_rate : ℚ
deriving DecidableEq

/-- `metric_column_map` of dashboard.py 183-188. -/
def metric_column_map : List (String × String) :=
  [ ("confirmed", "confirmed"), ("deaths", "deaths"),
    ("recovered", "recovered"), ("active", "active") ]

/-- `column = metric_column_map.get(metric, 'confirmed')` (dashboard.py 190):
an unknown metric falls back to the `confirmed` column. -/
def resolveMetricColumn (metric : String) : String :=
  ((metric_column_map.find? (fun p => decide (p.1 = metric))).map (fun p => p.2)).getD
    "confirmed"

/-- The value of the `ORDER BY total_{column}` sort key for a grouped row. -/
def metricValue (c : CountryTotals) (column : String) : ℤ :=
  if column = "deaths" then c.deaths
  else if column = "recovered" then c.recovered
  else if column = "active" then c.active
  else c.confirmed

/-- The per-country `GROUP BY country_region` sums for one date, with the
per-row mortality rate of dashboard.py 217. -/
def countryTotalsAt (store : List CaseRow) (d : ℕ) : List CountryTotals :=
  let rows := store.filter (fun r => decide (r.date = d))
  ((rows.map (fun r => r.country)).dedup).map (fun c =>
    let cr := rows.filter (fun r => decide (r.country = c))
    let tc := sumBy cr (fun r => r.confirmed)
    let td := sumBy cr (fun r => r.deaths)
    { country := c
      confirmed := tc
      deaths := td
      recovered := sumBy cr (fun r => r.recovered)
      active := sumBy cr (fun r => r.active)
      mortality_rate := if 0 < tc then round2 ((td : ℚ) / (tc : ℚ) * 100) else 0 })

/-- Outcome of the top-countries route: latest date plus ranked rows, or an
HTTP 500 (an empty store makes `latest_date.strftime` raise). -/
inductive TopResponse where
  | success : ℕ → List CountryTotals → TopResponse
  | failure : ℕ → TopResponse
deriving DecidableEq

/-- `get_top_countries` (dashboard.py 164-228): latest date, metric-column
lookup with silent `'confirmed'` default, group, sort descending, limit. -/
def get_top_countries (store : List CaseRow) (metric : String) (limit : ℕ) :
    TopResponse :=
  match latestDate store with
  | none => TopResponse.failure 500
  | some d =>
    let column := resolveMetricColumn metric
    let ranked := List.insertionSort
      (fun a b => metricValue b column ≤ metricValue a column)
      (countryTotalsAt store d)
    TopResponse.success d (ranked.take limit)

/-- One output row of the WHO-region rollup (cases.py 101-110). -/
structure RegionTotals where
  region : String
  confirmed : ℤ
  deaths : ℤ
  recovered : ℤ
  active : ℤ
deriving DecidableEq

/-- The rows feeding the rollup for date `d`:
`WHERE date = %s AND who_region != ''` (cases.py 94). -/
def rollupRows (store : List CaseRow) (d : ℕ) : List CaseRow :=
  store.filter (fun r => decide (r.date = d) && decide (r.who_region ≠ ""))

/-- One `GROUP BY who_region` group: the four `SUM`s over the rollup rows
whose region is `g` (cases.py 86-95). -/
def regionGroup (store : List CaseRow) (d : ℕ) (g : String) : RegionTotals :=
  let gr := (rollupRows store d).filter (fun r => decide (r.who_region = g))
  { region := g
    confirmed := sumBy gr (fun r => r.confirmed)
    deaths := sumBy gr (fun r => r.deaths)
    recovered := sumBy gr (fun r => r.recovered)
    active := sumBy gr (fun r => r.active) }

/-- The WHO-region rollup served for date `d`: one group per distinct
non-blank region among the rows of that date, ordered by total confirmed
descending (cases.py 86-96). -/
def whoRegionRollup (store : List CaseRow) (d : ℕ) : List RegionTotals :=
  List.insertionSort (fun a b => b.confirmed ≤ a.confirmed)
    ((((rollupRows store d).map (fun r => r.who_region)).dedup).map (regionGroup store d))

/-! ## Training target creation (train_model.py 67-81) -/

/-- One row of the loaded training corpus (train_model.py 42-56). -/
structure TrainRow where
  country : String
  date : ℕ
  confirmed : ℚ
  deaths : ℚ
  recovered : ℚ
  active : ℚ
  who_region : String
deriving DecidableEq

/-- `df['mortality_rate'] = (df['deaths'] / df['confirmed'] * 100)` with
`fillna(0)` and `replace([inf, -inf], 0)` (train_model.py 73-74): a zero
denominator yields 0. -/
def trainMortalityRate (r : TrainRow) : ℚ :=
  if r.confirmed = 0 then 0 else r.deaths / r.confirmed * 100

/-- Linear-interpolation quantile as computed by pandas `Series.quantile`
(default `interpolation='linear'`): on the ascending sort `s` of the values,
position `q * (n - 1)` interpolated between its two neighbours. -/
def quantileLinear (q : ℚ) (xs : List ℚ) : ℚ :=
  let s := List.insertionSort (fun a b => a ≤ b) xs
  let n := s.length
  if n = 0 then 0
  else
    let pos : ℚ := q * ((n : ℚ) - 1)
    let i : ℕ := ⌊pos⌋.toNat
    let lo := s.getD i 0
    let hi := s.getD (i + 1) lo
    lo + (pos - (i : ℚ)) * (hi - lo)

/-- `mortality_threshold = df['mortality_rate'].quantile(0.6)`
(train_model.py 77): recomputed from the supplied corpus. -/
def mortality_threshold (corpus : List TrainRow) : ℚ :=
  quantileLinear (6/10) (corpus.map trainMortalityRate)

/-- `df['high_mortality_risk'] = (df['mortality_rate'] > mortality_threshold).astype(int)`
(train_model.py 81). -/
def highMortalityLabel (corpus : List TrainRow) (r : TrainRow) : ℕ :=
  if trainMortalityRate r > mortality_threshold corpus then 1 else 0

/-! ## Concrete fixtures used by witnesses and counterexamples -/

/-- The end-to-end example input of the spec: confirmed 1000, deaths 50. -/
def demoSnapshot : Snapshot := [ ("confirmed", 1000), ("deaths", 50) ]

/-- A concrete stand-in for `np.log1p` where its values do not matter. -/
def idLog : ℚ → ℚ := fun x => x

/-- A concrete classifier instance for witnesses. -/
def demoClassifier : Classifier := ⟨ fun _ => 0, fun _ => (1, 0)⟩

/-- A small concrete Case Store: four countries over two dates, one row
with a blank WHO region. -/
def demoCaseStore : List CaseRow :=
  [ ⟨ "Alpha", 1, 100, 10, 5, 85, "Europe"⟩,
    ⟨ "Beta", 1, 50, 1, 2, 47, "Europe"⟩,
    ⟨ "Alpha", 0, 90, 9, 4, 77, "Europe"⟩,
    ⟨ "Gamma", 1, 70, 7, 3, 60, "Americas"⟩,
    ⟨ "Delta", 1, 40, 4, 2, 34, ""⟩ ]

/-- A synthetic corpus with mortality rates 0..10 percent: its 60th
percentile is exactly 6. -/
def demoCorpusA : List TrainRow :=
  (List.range 11).map (fun k => ⟨ "X", k, 100, (k : ℚ), 0, 0, "Europe"⟩)

/-- A synthetic corpus with all-zero mortality rates: threshold 0. -/
def demoCorpusB : List TrainRow :=
  (List.range 5).map (fun k => ⟨ "Y", k, 100, 0, 0, 0, "Africa"⟩)

/-- A filesystem with every artifact except the scaler blob. -/
def fsAllButScaler : String → Bool := fun p => decide (p ≠ "models/scaler.pkl")

/-! ## Claims -/

/-- Claim C1: for every inference input dictionary the feature vector built
by `prepare_features` has exactly 19 entries, their documented order is
exactly the ordered `feature_columns` list persisted by the training
script, and the persisted scaling transform is applied to the vector before
it is handed to the classifier. -/
theorem C1_feature_schema_refinement (lg : ℚ → ℚ) (sc : Scaler) (m : Classifier)
    (d : Snapshot) :
    (prepare_features_raw lg d).length = 19 ∧
    feature_columns.length = 19 ∧
    (namedRawFeatures lg d).map Prod.fst = feature_columns ∧
    (namedRawFeatures lg d).map Prod.snd = prepare_features_raw lg d ∧
    prepare_features lg (some sc) d = scaleFeatures sc (prepare_features_raw lg d) ∧
    (mlPredict m (some sc) lg d).risk_score =
      (m.probaOf (scaleFeatures sc (prepare_features_raw lg d))).2 ∧
    (mlPredict m (some sc) lg d).predictedClass =
      m.classOf (scaleFeatures sc (prepare_features_raw lg d)) :=
  ⟨rfl, rfl, rfl, rfl, rfl, rfl, rfl⟩

theorem C1_feature_schema_refinement_witness :
    (prepare_features_raw idLog demoSnapshot).length = 19 ∧
    (namedRawFeatures idLog demoSnapshot).map Prod.fst = feature_columns :=
  ⟨(C1_feature_schema_refinement idLog [] demoClassifier demoSnapshot).1,
   (C1_feature_schema_refinement idLog [] demoClassifier demoSnapshot).2.2.1⟩

/-- Claim C3: the recomputed `mortality_rate` of the returned assessment is
0 whenever the input's `confirmed` is not strictly positive, and equals
deaths divided by confirmed times 100 whenever `confirmed` is strictly
positive. -/
theorem C3_mortality_rate_zero_safe (m : Classifier) (sc : Option Scaler)
    (lg : ℚ → ℚ) (d : Snapshot) :
    (mlPredict m sc lg d).mortality_rate = mortalityRateOf d ∧
    (d.get "confirmed" 0 ≤ 0 → mortalityRateOf d = 0) ∧
    (0 < d.get "confirmed" 0 →
      mortalityRateOf d = d.get "deaths" 0 / d.get "confirmed" 0 * 100) := by
  refine ⟨rfl, ?_, ?_⟩
  · intro h
    unfold mortalityRateOf
    rw [if_neg (not_lt.mpr h)]
  · intro h
    unfold mortalityRateOf
    rw [if_pos h, Snapshot.get_pos_default_irrel d "confirmed" 1 h]

theorem C3_mortality_rate_zero_safe_witness :
    (0 : ℚ) < Snapshot.get demoSnapshot "confirmed" 0 ∧
    mortalityRateOf demoSnapshot = 5 ∧
    mortalityRateOf [ ("confirmed", 0), ("deaths", 7) ] = 0 := by
  have h : (0 : ℚ) < Snapshot.get demoSnapshot "confirmed" 0 := by decide
  refine ⟨h, ?_, ?_⟩
  · rw [(C3_mortality_rate_zero_safe demoClassifier none idLog demoSnapshot).2.2 h]
    simp only [Snapshot.get, demoSnapshot, List.find?, String.reduceEq, decide_False,
      decide_True]
    norm_num
  · exact (C3_mortality_rate_zero_safe demoClassifier none idLog
      [ ("confirmed", 0), ("deaths", 7) ]).2.1 (by decide)

/-- Claim C4: risk banding is a pure step function of the score: LOW for
scores at most 0.4, MEDIUM for scores above 0.4 and at most 0.7, HIGH above
0.7, each with its fixed advisory text; 0.4 is LOW and 0.7 is MEDIUM. -/
theorem C4_risk_banding (s : ℚ) :
    (s ≤ 4/10 → bandOf s = ⟨ "LOW", "green", lowRiskText⟩) ∧
    (4/10 < s → s ≤ 7/10 → bandOf s = ⟨ "MEDIUM", "orange", mediumRiskText⟩) ∧
    (7/10 < s → bandOf s = ⟨ "HIGH", "red", highRiskText⟩) ∧
    bandOf (4/10) = ⟨ "LOW", "green", lowRiskText⟩ ∧
    bandOf (7/10) = ⟨ "MEDIUM", "orange", mediumRiskText⟩ ∧
    (∀ (m : Classifier) (sc : Option Scaler) (lg : ℚ → ℚ) (d : Snapshot),
      (mlPredict m sc lg d).risk_level =
        (bandOf (m.probaOf (prepare_features lg sc d)).2).level ∧
      (mlPredict m sc lg d).advisoryText =
        (bandOf (m.probaOf (prepare_features lg sc d)).2).advisoryText) := by
  refine ⟨?_, ?_, ?_, ?_, ?_, fun m sc lg d => ⟨rfl, rfl⟩⟩
  · intro h
    unfold bandOf
    rw [if_neg (by linarith), if_neg (by linarith)]
  · intro h1 h2
    unfold bandOf
    rw [if_neg (by linarith), if_pos (by linarith)]
  · intro h
    unfold bandOf
    rw [if_pos (by linarith)]
  · unfold bandOf
    rw [if_neg (by norm_num), if_neg (by norm_num)]
  · unfold bandOf
    rw [if_neg (by norm_num), if_pos (by norm_num)]

theorem C4_risk_banding_witness :
    bandOf (1/10) = ⟨ "LOW", "green", lowRiskText⟩ ∧
    bandOf (11/20) = ⟨ "MEDIUM", "orange", mediumRiskText⟩ ∧
    bandOf (3/4) = ⟨ "HIGH", "red", highRiskText⟩ :=
  ⟨(C4_risk_banding (1/10)).1 (by norm_num),
   (C4_risk_banding (11/20)).2.1 (by norm_num) (by norm_num),
   (C4_risk_banding (3/4)).2.2.1 (by norm_num)⟩

theorem missingFields_ne_nil (d : Snapshot)
    (h : d.hasKey "confirmed" = false ∨ d.hasKey "deaths" = false) :
    missingFields d ≠ [] := by
  unfold missingFields required_fields
  rcases h with h | h
  · simp [List.filter_cons, h]
  · rcases hc : d.hasKey "confirmed"
    · simp [List.filter_cons, hc]
    · simp [List.filter_cons, hc, h]

/-- Claim C2 counterexample: the empty input dict lacks both required keys,
yet the route's error is the generic "No data provided" (Python's falsy
check fires first), not a message naming the missing fields. -/
theorem C2_counterexample :
    predict_mortality demoClassifier none idLog (some []) =
      RouteResponse.failure 400 "No data provided" ∧
    RouteResponse.failure 400 "No data provided" ≠
      RouteResponse.failure 400
        ("Missing required fields: " ++ String.intercalate ", " (missingFields [])) := by
  exact ⟨rfl, by decide⟩

/-- Claim C2 (amended): a null body or an empty dict is rejected with the
generic "No data provided"; every nonempty snapshot missing `confirmed` or
`deaths` is rejected with an error naming exactly the missing fields, and
the response is independent of the classifier, scaler and log transform,
so no prediction is computed. -/
theorem C2_missing_fields_rejected :
    (∀ (m : Classifier) (sc : Option Scaler) (lg : ℚ → ℚ),
      predict_mortality m sc lg none = RouteResponse.failure 400 "No data provided") ∧
    (∀ (m : Classifier) (sc : Option Scaler) (lg : ℚ → ℚ),
      predict_mortality m sc lg (some []) =
        RouteResponse.failure 400 "No data provided") ∧
    (∀ (m m2 : Classifier) (sc sc2 : Option Scaler) (lg lg2 : ℚ → ℚ) (d : Snapshot),
      d ≠ [] →
      (d.hasKey "confirmed" = false ∨ d.hasKey "deaths" = false) →
      predict_mortality m sc lg (some d) =
        RouteResponse.failure 400
          ("Missing required fields: " ++ String.intercalate ", " (missingFields d)) ∧
      predict_mortality m sc lg (some d) = predict_mortality m2 sc2 lg2 (some d)) := by
  refine ⟨fun m sc lg => rfl, fun m sc lg => rfl, ?_⟩
  intro m m2 sc sc2 lg lg2 d hd hmiss
  have hne := missingFields_ne_nil d hmiss
  have heq : ∀ (m3 : Classifier) (sc3 : Option Scaler) (lg3 : ℚ → ℚ),
      predict_mortality m3 sc3 lg3 (some d) =
        RouteResponse.failure 400
          ("Missing required fields: " ++ String.intercalate ", " (missingFields d)) := by
    intro m3 sc3 lg3
    show (if d = [] then _ else if missingFields d ≠ [] then _ else _) = _
    rw [if_neg hd, if_pos hne]
  exact ⟨heq m sc lg, (heq m sc lg).trans (heq m2 sc2 lg2).symm⟩

theorem C2_missing_fields_rejected_witness :
    predict_mortality demoClassifier none idLog (some [ ("deaths", 5) ]) =
      RouteResponse.failure 400 "Missing required fields: confirmed" := by
  have h := C2_missing_fields_rejected.2.2 demoClassifier demoClassifier none none
    idLog idLog [ ("deaths", 5) ] (by decide) (Or.inl (by decide))
  rw [h.1]
  decide

/-- Claim C5: the high-mortality label threshold is recomputed from the
supplied corpus as the 60th percentile of deaths/confirmed×100 over its
rows, and a row is labelled 1 exactly when its rate strictly exceeds that
threshold. On the synthetic corpus with rates 0..10 the threshold is
exactly 6, and it differs from the all-zero corpus's threshold, so it is
not a hard-coded constant. -/
theorem C5_percentile_threshold :
    (∀ (corpus : List TrainRow) (r : TrainRow),
      highMortalityLabel corpus r = 1 ↔
        trainMortalityRate r > mortality_threshold corpus) ∧
    (∀ corpus : List TrainRow,
      mortality_threshold corpus =
        quantileLinear (6/10) (corpus.map trainMortalityRate)) ∧
    mortality_threshold demoCorpusA = 6 ∧
    mortality_threshold demoCorpusB = 0 ∧
    mortality_threshold demoCorpusA ≠ mortality_threshold demoCorpusB := by
  have hA : mortality_threshold demoCorpusA = 6 := by
    norm_num [mortality_threshold, quantileLinear, trainMortalityRate, demoCorpusA,
      List.range_succ, List.insertionSort, List.orderedInsert,
      show Int.toNat 6 = 6 from rfl]
  have hB : mortality_threshold demoCorpusB = 0 := by
    norm_num [mortality_threshold, quantileLinear, trainMortalityRate, demoCorpusB,
      List.range_succ, List.insertionSort, List.orderedInsert,
      show Int.toNat 2 = 2 from rfl]
  refine ⟨?_, fun _ => rfl, hA, hB, by rw [hA, hB]; norm_num⟩
  intro corpus r
  unfold highMortalityLabel
  split_ifs with h
  · simp [h]
  · simp [h]

theorem C5_percentile_threshold_witness :
    highMortalityLabel demoCorpusA ⟨ "X", 10, 100, 10, 0, 0, "Europe"⟩ = 1 := by
  refine (C5_percentile_threshold.1 demoCorpusA _).mpr ?_
  rw [C5_percentile_threshold.2.2.1]
  norm_num [trainMortalityRate]

/-- Claim C6: every absent lag-2 field defaults to 0.92 times the
corresponding current value, and every absent volatility defaults to half
the absolute value of the implied 2-day delta, by the same fixed formulas
on every call (the builder is a pure function of the input dict). -/
theorem C6_heuristic_defaults (d : Snapshot) :
    (d.hasKey "confirmed_lag2" = false →
      confirmedLag2 d = inputConfirmed d * (92/100)) ∧
    (d.hasKey "deaths_lag2" = false →
      deathsLag2 d = inputDeaths d * (92/100)) ∧
    (d.hasKey "recovered_lag2" = false →
      recoveredLag2 d = inputRecovered d * (92/100)) ∧
    (d.hasKey "active_lag2" = false →
      activeLag2 d = inputActive d * (92/100)) ∧
    (d.hasKey "confirmed_volatility" = false →
      confirmedVolatility d = |confirmedChange2d d| * (1/2)) ∧
    (d.hasKey "deaths_volatility" = false →
      deathsVolatility d = |deathsChange2d d| * (1/2)) :=
  ⟨fun h => Snapshot.get_absent d "confirmed_lag2" _ h,
   fun h => Snapshot.get_absent d "deaths_lag2" _ h,
   fun h => Snapshot.get_absent d "recovered_lag2" _ h,
   fun h => Snapshot.get_absent d "active_lag2" _ h,
   fun h => Snapshot.get_absent d "confirmed_volatility" _ h,
   fun h => Snapshot.get_absent d "deaths_volatility" _ h⟩

theorem C6_heuristic_defaults_witness :
    Snapshot.hasKey demoSnapshot "confirmed_lag2" = false ∧
    confirmedLag2 demoSnapshot = 920 ∧
    confirmedVolatility demoSnapshot = 40 := by
  have h1 : Snapshot.hasKey demoSnapshot "confirmed_lag2" = false := by decide
  have h2 := (C6_heuristic_defaults demoSnapshot).1 h1
  have h5 := (C6_heuristic_defaults demoSnapshot).2.2.2.2.1
    (show Snapshot.hasKey demoSnapshot "confirmed_volatility" = false by decide)
  refine ⟨h1, ?_, ?_⟩
  · rw [h2]
    simp only [inputConfirmed, Snapshot.get, demoSnapshot, List.find?, String.reduceEq,
      decide_False, decide_True]
    norm_num
  · rw [h5, confirmedChange2d, h2]
    simp only [inputConfirmed, Snapshot.get, demoSnapshot, List.find?, String.reduceEq,
      decide_False, decide_True]
    norm_num

/-- Claim C7 counterexample: with every artifact on disk except the scaler
blob, `load_model` completes successfully with no scaler loaded — it does
not raise for the absent fourth blob. -/
theorem C7_counterexample :
    fsAllButScaler "models/scaler.pkl" = false ∧
    loadModel fsAllButScaler = Except.ok { scalerLoaded := false } := by
  exact ⟨by decide, rfl⟩

/-- Claim C7 (amended): `load_model` fails loudly when the classifier, the
feature-names list or the metrics blob is absent, but a missing scaler blob
is tolerated: loading completes with no scaler, and inference then silently
skips the scaling step. -/
theorem C7_load_model_failures (present : String → Bool) :
    (present "models/mortality_model.pkl" = false →
      loadModel present =
        Except.error "Model file not found: models/mortality_model.pkl") ∧
    (present "models/mortality_model.pkl" = true →
      present "models/feature_columns.pkl" = false →
      loadModel present =
        Except.error "No such file or directory: models/feature_columns.pkl") ∧
    (present "models/mortality_model.pkl" = true →
      present "models/feature_columns.pkl" = true →
      present "models/model_metrics.pkl" = false →
      loadModel present =
        Except.error "No such file or directory: models/model_metrics.pkl") ∧
    (present "models/mortality_model.pkl" = true →
      present "models/feature_columns.pkl" = true →
      present "models/model_metrics.pkl" = true →
      loadModel present = Except.ok { scalerLoaded := present "models/scaler.pkl" }) ∧
    (∀ (lg : ℚ → ℚ) (d : Snapshot),
      prepare_features lg none d = prepare_features_raw lg d) := by
  refine ⟨?_, ?_, ?_, ?_, fun _ _ => rfl⟩
  · intro h1
    unfold loadModel
    rw [if_pos h1]
  · intro h1 h2
    unfold loadModel
    rw [if_neg (by simp [h1]), if_pos h2]
  · intro h1 h2 h3
    unfold loadModel
    rw [if_neg (by simp [h1]), if_neg (by simp [h2]), if_pos h3]
  · intro h1 h2 h3
    unfold loadModel
    rw [if_neg (by simp [h1]), if_neg (by simp [h2]), if_neg (by simp [h3])]

theorem C7_load_model_failures_witness :
    loadModel fsAllButScaler =
      Except.ok { scalerLoaded := fsAllButScaler "models/scaler.pkl" } :=
  (C7_load_model_failures fsAllButScaler).2.2.2.1 (by decide) (by decide) (by decide)

/-- Helper for the top-countries route: `TopResponse` success check. -/
def isSuccessTop : TopResponse → Bool
  | TopResponse.success _ _ => true
  | TopResponse.failure _ => false

/-- Claim C8 counterexample: the metric key "unknown_metric" is not one of
confirmed/deaths/recovered/active, yet the route answers exactly as for the
default metric, with a success response and no validation error. -/
theorem C8_counterexample :
    resolveMetricColumn "unknown_metric" = "confirmed" ∧
    get_top_countries demoCaseStore "unknown_metric" 20 =
      get_top_countries demoCaseStore "confirmed" 20 ∧
    isSuccessTop (get_top_countries demoCaseStore "unknown_metric" 20) = true := by
  exact ⟨rfl, rfl, rfl⟩

/-- Claim C8 (amended): a metric key outside confirmed/deaths/recovered/
active is silently replaced by the default metric `confirmed`
(`metric_column_map.get(metric, 'confirmed')`); the route's response is
identical to the default-metric response and no validation error is
reported. -/
theorem C8_unknown_metric_silently_defaults (store : List CaseRow)
    (metric : String) (limit : ℕ)
    (h1 : metric ≠ "confirmed") (h2 : metric ≠ "deaths")
    (h3 : metric ≠ "recovered") (h4 : metric ≠ "active") :
    resolveMetricColumn metric = "confirmed" ∧
    get_top_countries store metric limit = get_top_countries store "confirmed" limit := by
  have hnone : metric_column_map.find? (fun p => decide (p.1 = metric)) = none := by
    rw [List.find?_eq_none]
    intro x hx
    fin_cases hx <;> simp [h1.symm, h2.symm, h3.symm, h4.symm]
  have hres : resolveMetricColumn metric = "confirmed" := by
    unfold resolveMetricColumn
    rw [hnone]
    rfl
  refine ⟨hres, ?_⟩
  unfold get_top_countries
  rw [hres]
  rfl

theorem C8_unknown_metric_silently_defaults_witness :
    resolveMetricColumn "not_a_valid_key" = "confirmed" ∧
    get_top_countries demoCaseStore "not_a_valid_key" 20 =
      get_top_countries demoCaseStore "confirmed" 20 :=
  C8_unknown_metric_silently_defaults demoCaseStore "not_a_valid_key" 20
    (by decide) (by decide) (by decide) (by decide)

/-- Claim C9: every region row served by the WHO-region rollup reports, for
each of the four count fields, exactly the sum of that field over all Case
Store rows sharing that date and that region. -/
theorem C9_region_rollup_sums (store : List CaseRow) (d : ℕ) (t : RegionTotals)
    (ht : t ∈ whoRegionRollup store d) :
    t.confirmed = sumBy (store.filter
      (fun r => decide (r.date = d) && decide (r.who_region = t.region)))
      (fun r => r.confirmed) ∧
    t.deaths = sumBy (store.filter
      (fun r => decide (r.date = d) && decide (r.who_region = t.region)))
      (fun r => r.deaths) ∧
    t.recovered = sumBy (store.filter
      (fun r => decide (r.date = d) && decide (r.who_region = t.region)))
      (fun r => r.recovered) ∧
    t.active = sumBy (store.filter
      (fun r => decide (r.date = d) && decide (r.who_region = t.region)))
      (fun r => r.active) := by
  unfold whoRegionRollup at ht
  rw [List.Perm.mem_iff (List.perm_insertionSort _ _)] at ht
  obtain ⟨g, hg, rfl⟩ := List.mem_map.mp ht
  rw [List.mem_dedup] at hg
  obtain ⟨r0, hr0, hr0g⟩ := List.mem_map.mp hg
  unfold rollupRows at hr0
  have hr0p := List.of_mem_filter hr0
  simp only [Bool.and_eq_true, decide_eq_true_eq] at hr0p
  have hgne : g ≠ "" := by
    rw [← hr0g]
    exact hr0p.2
  have hfe : (rollupRows store d).filter (fun r => decide (r.who_region = g)) =
      store.filter (fun r => decide (r.date = d) && decide (r.who_region = g)) := by
    unfold rollupRows
    rw [List.filter_filter]
    apply List.filter_congr
    intro a _
    by_cases hw : a.who_region = g
    · by_cases hdt : a.date = d <;> simp [hw, hdt, hgne]
    · simp [hw]
  refine ⟨?_, ?_, ?_, ?_⟩ <;> simp only [regionGroup] <;> rw [hfe]

theorem C9_region_rollup_sums_witness :
    (⟨ "Europe", 150, 11, 7, 132⟩ : RegionTotals) ∈ whoRegionRollup demoCaseStore 1 ∧
    (150 : ℤ) = sumBy (demoCaseStore.filter
      (fun r => decide (r.date = 1) && decide (r.who_region = "Europe")))
      (fun r => r.confirmed) := by
  have hmem : (⟨ "Europe", 150, 11, 7, 132⟩ : RegionTotals) ∈
      whoRegionRollup demoCaseStore 1 := by decide
  exact ⟨hmem, (C9_region_rollup_sums demoCaseStore 1 _ hmem).1⟩

/-- Claim C10: a snapshot without `who_region_encoded` gets region code 0 at
inference — the code the training mapping gives to "Americas" — while the
training pipeline encodes a blank or unrecognized WHO-region name as 6, so
the inference-time default differs from the training-time bucket for
unspecified regions. -/
theorem C10_region_default_mismatch (d : Snapshot)
    (h : d.hasKey "who_region_encoded" = false) :
    whoRegionEncoded d = (encodeWhoRegion "Americas" : ℚ) ∧
    encodeWhoRegion "Americas" = 0 ∧
    encodeWhoRegion "" = 6 ∧
    (∀ s : String, region_mapping.find? (fun p => decide (p.1 = s)) = none →
      encodeWhoRegion s = 6) ∧
    whoRegionEncoded d ≠ (encodeWhoRegion "" : ℚ) := by
  have h0 : whoRegionEncoded d = 0 := Snapshot.get_absent d "who_region_encoded" 0 h
  refine ⟨?_, by decide, by decide, ?_, ?_⟩
  · rw [h0]
    simp only [encodeWhoRegion, region_mapping, List.find?, String.reduceEq,
      decide_False, decide_True]
    norm_num
  · intro s hs
    unfold encodeWhoRegion
    rw [hs]
    rfl
  · rw [h0]
    simp only [encodeWhoRegion, region_mapping, List.find?, String.reduceEq,
      decide_False, decide_True]
    norm_num

theorem C10_region_default_mismatch_witness :
    Snapshot.hasKey demoSnapshot "who_region_encoded" = false ∧
    whoRegionEncoded demoSnapshot = 0 ∧
    whoRegionEncoded demoSnapshot ≠ (encodeWhoRegion "" : ℚ) := by
  have hk : Snapshot.hasKey demoSnapshot "who_region_encoded" = false := by decide
  have h := C10_region_default_mismatch demoSnapshot hk
  refine ⟨hk, ?_, h.2.2.2.2⟩
  rw [h.1]
  simp only [encodeWhoRegion, region_mapping, List.find?, String.reduceEq,
    decide_False, decide_True]
  norm_num
